import Mathlib

/-!
Shallow embedding of the resilient data-access layer of the EigenWatch
backend: the DataService request queue (deduplication, concurrency-bounded
scheduling, circuit breaker, processed-request memo) and the cache-aside
gateway cachedQuery built on RedisCacheService.

Conventions of the embedding:
* JS numbers holding millisecond epochs are Nat; priorities are Int.
* The argument named vars stands for the already-serialized JSON text of
  the query variables (JSON.stringify is injective on the values used, so
  carrying the serialization is faithful for key derivation).
* Promises are identified by a counter; a map from promise id to
  Option Outcome records settlement (none = still pending).
* Logging calls are omitted: they do not affect any modelled state.
-/

/-- Configuration constant MAX_CONCURRENT_REQUESTS of DataService. -/
def MAX_CONCURRENT_REQUESTS : Nat := 3

/-- Configuration constant QUEUE_PROCESSING_INTERVAL (ms) of DataService. -/
def QUEUE_PROCESSING_INTERVAL : Nat := 100

/-- Configuration constant REQUEST_TIMEOUT (ms) of DataService, the value of
the source line  REQUEST_TIMEOUT = 250000; // 25 seconds  . -/
def REQUEST_TIMEOUT : Nat := 250000

/-- Configuration constant EXPIRY_DURATION (ms) for the processed-request memo. -/
def EXPIRY_DURATION : Nat := 60 * 60 * 1000

/-- Circuit breaker constant FAILURE_THRESHOLD of DataService. -/
def FAILURE_THRESHOLD : Nat := 5

/-- Circuit breaker constant RECOVERY_TIMEOUT (ms) of DataService. -/
def RECOVERY_TIMEOUT : Nat := 60000

/-- One step of collapsing runs of whitespace to a single space, the effect
of the JS replace with a global one-or-more-whitespace pattern. The Bool
records whether the previous character was whitespace. -/
def collapseWsAux : Bool → List Char → List Char
  | _, [] => []
  | prevWs, c :: rest =>
    if c.isWhitespace then
      if prevWs then collapseWsAux true rest
      else ' ' :: collapseWsAux true rest
    else c :: collapseWsAux false rest

/-- Remove leading and trailing whitespace, the effect of JS String.trim. -/
def trimChars (l : List Char) : List Char :=
  ((l.dropWhile Char.isWhitespace).reverse.dropWhile Char.isWhitespace).reverse

/-- DataService.getRequestId: normalized query text, an underscore, and the
serialized variables. -/
def getRequestId (query : String) (vars : String) : String :=
  String.mk (trimChars (collapseWsAux false query.data)) ++ "_" ++ vars

/-- Untyped JS values as far as the cache layer distinguishes them: null,
undefined, booleans, numbers, strings, and opaque objects (by tag). -/
inductive JSVal
  | vnull
  | vundef
  | vbool (b : Bool)
  | vnum (n : Int)
  | vstr (s : String)
  | vobj (tag : Nat)
deriving DecidableEq, Repr

/-- JS truthiness for the modelled values. -/
def truthy : JSVal → Bool
  | .vnull => false
  | .vundef => false
  | .vbool b => b
  | .vnum n => n != 0
  | .vstr s => s != ""
  | .vobj _ => true

/-- Outcome of an asynchronous computation: resolution value or rejection value. -/
abbrev Outcome := Except JSVal JSVal

deriving instance DecidableEq for Except

/-- Circuit breaker state: the two mutable fields failureCount and
lastFailureTime of DataService. -/
structure CircuitBreakerSt where
  failureCount : Nat
  lastFailureTime : Nat
deriving DecidableEq, Repr

/-- DataService.isCircuitOpen, which also mutates the breaker: when the
failure count reached the threshold but more than RECOVERY_TIMEOUT ms have
passed since the last failure, it resets failureCount to 0 and reports the
circuit as closed. -/
def isCircuitOpen (b : CircuitBreakerSt) (now : Nat) : Bool × CircuitBreakerSt :=
  if b.failureCount < FAILURE_THRESHOLD then (false, b)
  else if now - b.lastFailureTime > RECOVERY_TIMEOUT then
    (false, { b with failureCount := 0 })
  else (true, b)

/-- DataService.recordFailure: increment the count and stamp the time. -/
def recordFailure (b : CircuitBreakerSt) (now : Nat) : CircuitBreakerSt :=
  { b with failureCount := b.failureCount + 1, lastFailureTime := now }

/-- DataService.recordSuccess: reset the failure count. The source guards the
write behind a positivity test, which has the same resulting state. -/
def recordSuccess (b : CircuitBreakerSt) : CircuitBreakerSt :=
  { b with failureCount := 0 }

/-- One entry of DataService.requestQueue. The execute closure captures the
query and variables; we carry them, plus the promise id of the caller-visible
future created alongside the entry. -/
structure QueueItem where
  id : String
  query : String
  vars : String
  promiseId : Nat
  priority : Int
  timestamp : Nat
deriving DecidableEq, Repr

/-- The sort order of processQueue: higher priority first, ties broken by
older enqueue timestamp first. Mirrors the comparator
(a, b) => b.priority - a.priority, ties a.timestamp - b.timestamp. -/
def reqOrder (a b : QueueItem) : Prop :=
  if a.priority = b.priority then a.timestamp ≤ b.timestamp
  else b.priority < a.priority

instance : DecidableRel reqOrder := fun a b => by
  unfold reqOrder; infer_instance

instance : IsTotal QueueItem reqOrder where
  total a b := by
    unfold reqOrder
    split_ifs with h1 h2 <;> omega

instance : IsTrans QueueItem reqOrder where
  trans a b c hab hbc := by
    unfold reqOrder at *
    split_ifs at * <;> omega

/-- An entry of the processedRequests memo: the stored result (a resolution
value or the stored rejection value) and the completion timestamp. -/
structure MemoEntry where
  result : Outcome
  timestamp : Nat
deriving DecidableEq, Repr

/-- The mutable state of one DataService instance. -/
structure DSState where
  requestQueue : List QueueItem
  pendingRequests : List (String × Nat)
  activeRequests : List String
  processedRequests : List (String × MemoEntry)
  promises : List (Nat × Option Outcome)
  nextPromiseId : Nat
  isProcessingQueue : Bool
  breaker : CircuitBreakerSt
  inFlight : List QueueItem
  execLog : List String
deriving DecidableEq, Repr

/-- The state of a freshly constructed DataService. -/
def initialState : DSState :=
  { requestQueue := []
    pendingRequests := []
    activeRequests := []
    processedRequests := []
    promises := []
    nextPromiseId := 0
    isProcessingQueue := false
    breaker := ⟨0, 0⟩
    inFlight := []
    execLog := [] }

/-- Set.add on the active-request set (JS sets keep insertion order). -/
def addId (l : List String) (id : String) : List String :=
  if l.contains id then l else l ++ [id]

/-- Set.delete on the active-request set. -/
def removeId (l : List String) (id : String) : List String :=
  l.filter (fun x => !(x == id))

/-- Map.delete on a string-keyed association list. -/
def removeKey (l : List (String × Nat)) (k : String) : List (String × Nat) :=
  l.filter (fun kv => !(kv.1 == k))

/-- Map.set on the processedRequests memo. -/
def memoSet (l : List (String × MemoEntry)) (k : String) (e : MemoEntry) :
    List (String × MemoEntry) :=
  (k, e) :: l.filter (fun kv => !(kv.1 == k))

/-- Settle a promise: a JS promise settles at most once, so an id that is
already settled keeps its first outcome. -/
def settlePromise (ps : List (Nat × Option Outcome)) (pid : Nat) (oc : Outcome) :
    List (Nat × Option Outcome) :=
  ps.map (fun kv =>
    if kv.1 == pid then
      (kv.1, match kv.2 with
             | none => some oc
             | some o => some o)
    else kv)

/-- DataService.queueSubgraphRequest: if a pending request for the derived
request id exists, hand back its future unchanged; otherwise create the
caller-visible promise, push a queue entry, and record the pending request.
Returns the promise id given to the caller. -/
def queueSubgraphRequest (s : DSState) (query vars : String) (priority : Int)
    (now : Nat) : Nat × DSState :=
  let requestId := getRequestId query vars
  match s.pendingRequests.lookup requestId with
  | some p => (p, s)
  | none =>
    let p := s.nextPromiseId
    let item : QueueItem :=
      { id := requestId, query := query, vars := vars, promiseId := p
        priority := priority, timestamp := now }
    (p, { s with
            requestQueue := s.requestQueue ++ [item]
            pendingRequests := s.pendingRequests ++ [(requestId, p)]
            promises := s.promises ++ [(p, none)]
            nextPromiseId := p + 1 })

/-- N consecutive calls of queueSubgraphRequest with the same arguments,
returning the promise ids handed to the N callers. -/
def enqueueN (s : DSState) (query vars : String) (priority : Int) (now : Nat) :
    Nat → List Nat × DSState
  | 0 => ([], s)
  | n + 1 =>
    let r1 := queueSubgraphRequest s query vars priority now
    let r2 := enqueueN r1.2 query vars priority now n
    (r1.1 :: r2.1, r2.2)

/-- The per-entry body of the dispatch loop of processQueue: add the id to
activeRequests; if the processedRequests memo already holds the id, delete it
from activeRequests again and move on without dispatching (the source
continues the loop without resolving the entry); otherwise invoke the execute
closure (recorded in execLog) and hand the request to processRequestSafely
(recorded in inFlight until settlement). Returns the entries actually
dispatched this tick. -/
def admitAll : DSState → List QueueItem → DSState × List QueueItem
  | s, [] => (s, [])
  | s, it :: rest =>
    let act := addId s.activeRequests it.id
    if (s.processedRequests.lookup it.id).isSome then
      admitAll { s with activeRequests := removeId act it.id } rest
    else
      let r := admitAll
        { s with
            activeRequests := act
            inFlight := s.inFlight ++ [it]
            execLog := s.execLog ++ [it.id] } rest
      (r.1, it :: r.2)

/-- DataService.processQueue, one scheduler tick: skip when already
processing or the queue is empty; skip when the circuit breaker is open;
compute the free slots under MAX_CONCURRENT_REQUESTS; sort the queue by
priority descending then timestamp ascending (the JS in-place stable sort,
modelled by insertion sort); splice off at most that many entries and admit
them. Returns the new state and the entries dispatched this tick. -/
def processQueue (s : DSState) (now : Nat) : DSState × List QueueItem :=
  if s.isProcessingQueue || s.requestQueue.isEmpty then (s, [])
  else
    let c := isCircuitOpen s.breaker now
    let s1 := { s with breaker := c.2 }
    if c.1 then (s1, [])
    else
      let availableSlots : Int := (MAX_CONCURRENT_REQUESTS : Int) - s1.activeRequests.length
      if availableSlots ≤ 0 then (s1, [])
      else
        let sorted := List.insertionSort reqOrder s1.requestQueue
        let taken := sorted.take availableSlots.toNat
        let rest := sorted.drop availableSlots.toNat
        admitAll { s1 with requestQueue := rest } taken

/-- The settlement continuation installed by processRequestSafely on the
race of execute against the timeout: record the outcome with the breaker,
store it in the processedRequests memo, resolve or reject the caller-visible
promise, and in the finally blocks delete the id from activeRequests and the
pending-request table (the cleanup attached in queueSubgraphRequest). -/
def settleRequest (s : DSState) (item : QueueItem) (oc : Outcome) (now : Nat) :
    DSState :=
  let b := match oc with
    | .ok _ => recordSuccess s.breaker
    | .error _ => recordFailure s.breaker now
  { s with
      breaker := b
      processedRequests := memoSet s.processedRequests item.id ⟨oc, now⟩
      promises := settlePromise s.promises item.promiseId oc
      activeRequests := removeId s.activeRequests item.id
      pendingRequests := removeKey s.pendingRequests item.id
      inFlight := s.inFlight.erase item }

/-- The events that mutate DataService request-management state: a call into
queueSubgraphRequest, a scheduler tick, and the settlement of a dispatched
request. -/
inductive DSStep : DSState → DSState → Prop
  | enqueue (s : DSState) (query vars : String) (priority : Int) (now : Nat) :
      DSStep s (queueSubgraphRequest s query vars priority now).2
  | tick (s : DSState) (now : Nat) :
      DSStep s (processQueue s now).1
  | settle (s : DSState) (item : QueueItem) (oc : Outcome) (now : Nat)
      (h : item ∈ s.inFlight) :
      DSStep s (settleRequest s item oc now)

/-- The record returned by DataService.getQueueStatus. -/
structure QueueStatusRec where
  queueSize : Nat
  activeRequests : Nat
  failureCount : Nat
  circuitOpen : Bool
  pendingDeduplication : Nat
deriving DecidableEq, Repr

/-- DataService.getQueueStatus. The object literal reads failureCount before
evaluating isCircuitOpen, and isCircuitOpen may mutate the breaker, so the
call returns an updated state as well. -/
def getQueueStatus (s : DSState) (now : Nat) : QueueStatusRec × DSState :=
  let fc := s.breaker.failureCount
  let c := isCircuitOpen s.breaker now
  (⟨s.requestQueue.length, s.activeRequests.length, fc, c.1,
    s.pendingRequests.length⟩,
   { s with breaker := c.2 })

/-- One entry of the external key-value cache store: the stored value and its
absolute expiry instant derived from the TTL at write time. -/
structure StoreEntry where
  value : JSVal
  expiresAt : Nat
deriving DecidableEq, Repr

/-- The external key-value cache store. -/
abbrev Store := List (String × StoreEntry)

/-- The raw cache-manager read under the Redis expiry discipline: an entry
whose TTL has lapsed is gone, so the read yields undefined (here none). -/
def cacheManagerGet (store : Store) (key : String) (now : Nat) : Option JSVal :=
  match store.lookup key with
  | some e => if now < e.expiresAt then some e.value else none
  | none => none

/-- RedisCacheService.get: returns data or null, which coerces every falsy
stored value (0, empty string, false, null, undefined) to null. -/
def redisCacheGet (store : Store) (key : String) (now : Nat) : JSVal :=
  match cacheManagerGet store key now with
  | some v => if truthy v then v else .vnull
  | none => .vnull

/-- RedisCacheService.set: store the value under the key with an expiry
instant derived from the TTL. -/
def cacheManagerSet (store : Store) (key : String) (v : JSVal) (ttl : Nat)
    (now : Nat) : Store :=
  (key, ⟨v, now + ttl⟩) :: store.filter (fun kv => !(kv.1 == key))

/-- Error value modelling the ApiException CACHE_ERROR thrown by a failing
RedisCacheService.get. -/
def cacheReadError : JSVal := .vobj 100

/-- Error value modelling the ApiException CACHE_ERROR thrown by a failing
RedisCacheService.set. -/
def cacheWriteError : JSVal := .vobj 101

/-- The outcome of one DataService.cachedQuery call: the value returned or
the error thrown, the cache store after the writes of this call, the breaker
after this call, and how many times queryFn was invoked. -/
structure CQResult where
  result : Except JSVal JSVal
  store : Store
  breaker : CircuitBreakerSt
  queryFnCalls : Nat
deriving DecidableEq, Repr

/-- The catch block of DataService.cachedQuery: when the circuit breaker is
open (checked against the current time, mutating the breaker on a lapsed
recovery timeout), attempt a best-effort re-read of the key; the read sees
the store as it is at catch time (store2, a suspension point later than the
first read). A non-null read is returned; a null read, or an error from the
read (staleGetThrows), falls through to rethrowing the original error. -/
def cachedQueryCatch (store2 : Store) (b : CircuitBreakerSt) (key : String)
    (e : JSVal) (now2 : Nat) (staleGetThrows : Bool) (st : Store)
    (calls : Nat) : CQResult :=
  let c := isCircuitOpen b now2
  if c.1 then
    if staleGetThrows then ⟨.error e, st, c.2, calls⟩
    else
      let staleData := redisCacheGet store2 key now2
      if staleData ≠ .vnull then ⟨.ok staleData, st, c.2, calls⟩
      else ⟨.error e, st, c.2, calls⟩
  else ⟨.error e, st, c.2, calls⟩

/-- DataService.cachedQuery. The first cache read sees the store as store1
at time now1; the catch-time breaker check and stale re-read see store2 at
now2 (every awaited call is a suspension point, so the store may have been
written by others in between). queryOutcome is the settlement of queryFn
when invoked; get1Throws and setThrows make the corresponding cache
operations throw, landing in the catch block. -/
def cachedQuery (store1 store2 : Store) (b : CircuitBreakerSt) (key : String)
    (queryOutcome : Except JSVal JSVal) (ttl : Nat) (now1 now2 : Nat)
    (get1Throws staleGetThrows setThrows : Bool) : CQResult :=
  if get1Throws then
    cachedQueryCatch store2 b key cacheReadError now2 staleGetThrows store1 0
  else
    let cached := redisCacheGet store1 key now1
    if cached ≠ .vnull then ⟨.ok cached, store1, b, 0⟩
    else
      match queryOutcome with
      | .ok result =>
        if result ≠ .vnull ∧ result ≠ .vundef then
          if setThrows then
            cachedQueryCatch store2 b key cacheWriteError now2 staleGetThrows store1 1
          else
            ⟨.ok result, cacheManagerSet store1 key result ttl now1, b, 1⟩
        else ⟨.ok result, store1, b, 1⟩
      | .error e =>
        cachedQueryCatch store2 b key e now2 staleGetThrows store1 1

/-- Whatever branch the catch block takes, it does not invoke queryFn. -/
theorem cachedQueryCatch_calls (store2 : Store) (b : CircuitBreakerSt)
    (key : String) (e : JSVal) (now2 : Nat) (g2 : Bool) (st : Store)
    (calls : Nat) :
    (cachedQueryCatch store2 b key e now2 g2 st calls).queryFnCalls = calls := by
  simp only [cachedQueryCatch]
  split_ifs <;> rfl

/-- A non-null first read returns the cached value at once: no queryFn call,
no store write, no breaker interaction. -/
theorem cachedQuery_hit (store1 store2 : Store) (b : CircuitBreakerSt)
    (key : String) (oc : Except JSVal JSVal) (ttl now1 now2 : Nat)
    (g2 sT : Bool)
    (h : redisCacheGet store1 key now1 ≠ .vnull) :
    cachedQuery store1 store2 b key oc ttl now1 now2 false g2 sT =
      ⟨.ok (redisCacheGet store1 key now1), store1, b, 0⟩ := by
  unfold cachedQuery
  simp [h]

/-- Claim C6: the claim (and the source comment) say the dispatch timeout is
25 seconds as a deliberate margin under the assumed 30 second upstream
timeout, but the constant is 250000 ms = 250 seconds, which exceeds 30
seconds; the race can therefore never fire before the transport timeout. -/
theorem c6_request_timeout_constant :
    REQUEST_TIMEOUT = 250000 ∧ REQUEST_TIMEOUT ≠ 25 * 1000 ∧
    REQUEST_TIMEOUT = 250 * 1000 ∧ ¬(REQUEST_TIMEOUT < 30 * 1000) := by
  decide

/-- Claim C10: getQueueStatus is not a pure read. Computing the circuitOpen
field calls isCircuitOpen, which, when the failure count is at the threshold
and the recovery timeout has lapsed, resets failureCount to 0; the reported
failureCount is read before the reset, and the returned state differs from
the input state. -/
theorem c10_getQueueStatus_mutates_breaker (s : DSState) (now : Nat)
    (h1 : FAILURE_THRESHOLD ≤ s.breaker.failureCount)
    (h2 : RECOVERY_TIMEOUT < now - s.breaker.lastFailureTime) :
    (getQueueStatus s now).1.circuitOpen = false ∧
    (getQueueStatus s now).2.breaker.failureCount = 0 ∧
    (getQueueStatus s now).1.failureCount = s.breaker.failureCount ∧
    (getQueueStatus s now).2 ≠ s := by
  have hnot : ¬ s.breaker.failureCount < FAILURE_THRESHOLD := by omega
  refine ⟨?_, ?_, ?_, ?_⟩
  · simp [getQueueStatus, isCircuitOpen, hnot, h2]
  · simp [getQueueStatus, isCircuitOpen, hnot, h2]
  · rfl
  · intro heq
    have hb := congrArg (fun st => st.breaker.failureCount) heq
    simp only [getQueueStatus, isCircuitOpen, hnot, if_false, h2, if_true] at hb
    have h5 : (5 : Nat) ≤ s.breaker.failureCount := h1
    omega

/-- Witness for claim C10 at a concrete state. -/
theorem c10_getQueueStatus_mutates_breaker_witness :
    (getQueueStatus { initialState with breaker := ⟨5, 0⟩ } 60001).1.circuitOpen = false ∧
    (getQueueStatus { initialState with breaker := ⟨5, 0⟩ } 60001).2.breaker.failureCount = 0 ∧
    (getQueueStatus { initialState with breaker := ⟨5, 0⟩ } 60001).1.failureCount =
      ({ initialState with breaker := (⟨5, 0⟩ : CircuitBreakerSt) } : DSState).breaker.failureCount ∧
    (getQueueStatus { initialState with breaker := ⟨5, 0⟩ } 60001).2 ≠
      { initialState with breaker := ⟨5, 0⟩ } :=
  c10_getQueueStatus_mutates_breaker { initialState with breaker := ⟨5, 0⟩ } 60001
    (by decide) (by decide)

/-- Claim C3: from a closed breaker, five consecutive recorded failures with
no intervening success make isCircuitOpen true; while it is true a tick
dispatches nothing and changes neither the queue nor the active set nor the
execution log; with the count at the threshold, isCircuitOpen returns false
exactly when more than RECOVERY_TIMEOUT ms have elapsed since the last
failure, the transition resetting failureCount to 0; and any recorded
success resets failureCount to 0. The defaults are 5 and 60000 ms. -/
theorem c3_circuit_breaker :
    (FAILURE_THRESHOLD = 5 ∧ RECOVERY_TIMEOUT = 60000)
    ∧ (∀ (b : CircuitBreakerSt) (t1 t2 t3 t4 t5 now : Nat),
        b.failureCount = 0 →
        ((recordFailure (recordFailure (recordFailure (recordFailure
            (recordFailure b t1) t2) t3) t4) t5).failureCount = FAILURE_THRESHOLD
         ∧ (recordFailure (recordFailure (recordFailure (recordFailure
              (recordFailure b t1) t2) t3) t4) t5).lastFailureTime = t5
         ∧ (now - t5 ≤ RECOVERY_TIMEOUT →
              (isCircuitOpen (recordFailure (recordFailure (recordFailure
                (recordFailure (recordFailure b t1) t2) t3) t4) t5) now).1 = true)))
    ∧ (∀ (s : DSState) (now : Nat), (isCircuitOpen s.breaker now).1 = true →
        (processQueue s now).2 = []
        ∧ (processQueue s now).1.requestQueue = s.requestQueue
        ∧ (processQueue s now).1.activeRequests = s.activeRequests
        ∧ (processQueue s now).1.execLog = s.execLog)
    ∧ (∀ (b : CircuitBreakerSt) (now : Nat), FAILURE_THRESHOLD ≤ b.failureCount →
        (((isCircuitOpen b now).1 = false ↔ RECOVERY_TIMEOUT < now - b.lastFailureTime)
         ∧ (RECOVERY_TIMEOUT < now - b.lastFailureTime →
              (isCircuitOpen b now).2.failureCount = 0)))
    ∧ (∀ b : CircuitBreakerSt, (recordSuccess b).failureCount = 0) := by
  refine ⟨⟨rfl, rfl⟩, ?_, ?_, ?_, fun b => rfl⟩
  · intro b t1 t2 t3 t4 t5 now h0
    refine ⟨by simp [recordFailure, h0, FAILURE_THRESHOLD], rfl, ?_⟩
    intro helapsed
    simp only [isCircuitOpen, recordFailure, h0]
    split_ifs with hlt hrec
    · simp [FAILURE_THRESHOLD] at hlt
    · simp [recordFailure] at hrec
      omega
    · rfl
  · intro s now hopen
    unfold processQueue
    split
    · exact ⟨rfl, rfl, rfl, rfl⟩
    · simp [hopen]
  · intro b now hth
    have hnot : ¬ b.failureCount < FAILURE_THRESHOLD := by omega
    unfold isCircuitOpen
    split_ifs with h1
    · exact ⟨⟨fun _ => h1, fun _ => rfl⟩, fun _ => rfl⟩
    · exact ⟨⟨fun hF => absurd hF (by simp), fun hR => absurd hR h1⟩,
             fun hR => absurd hR h1⟩

/-- Witness for claim C3: five failures at times 1..5 leave the breaker open
at time 100, and recordSuccess on the resulting breaker resets the count. -/
theorem c3_circuit_breaker_witness :
    (isCircuitOpen (recordFailure (recordFailure (recordFailure (recordFailure
      (recordFailure ⟨0, 0⟩ 1) 2) 3) 4) 5) 100).1 = true ∧
    (recordSuccess (recordFailure (recordFailure (recordFailure (recordFailure
      (recordFailure ⟨0, 0⟩ 1) 2) 3) 4) 5)).failureCount = 0 :=
  ⟨(c3_circuit_breaker.2.1 ⟨0, 0⟩ 1 2 3 4 5 100 rfl).2.2 (by decide),
   c3_circuit_breaker.2.2.2.2 _⟩

/-- Claim C9: a falsy value stored fresh in the cache is treated as a miss:
RedisCacheService.get coerces it to null (data or-else null), the gateway
hit test cached not-equal null fails, and cachedQuery invokes queryFn. -/
theorem c9_falsy_cached_value_misses (store : Store) (key : String)
    (v : JSVal) (expAt : Nat) (b : CircuitBreakerSt)
    (oc : Except JSVal JSVal) (ttl now : Nat)
    (hstored : store.lookup key = some ⟨v, expAt⟩)
    (hfresh : now < expAt)
    (hfalsy : truthy v = false) :
    redisCacheGet store key now = .vnull ∧
    (cachedQuery store store b key oc ttl now now false false false).queryFnCalls = 1 := by
  have hg : redisCacheGet store key now = .vnull := by
    simp [redisCacheGet, cacheManagerGet, hstored, hfresh, hfalsy]
  refine ⟨hg, ?_⟩
  unfold cachedQuery
  simp only [hg, Bool.false_eq_true, if_false, ne_eq, not_true_eq_false]
  cases oc with
  | ok result =>
    simp only
    split_ifs <;> simp [cachedQueryCatch_calls]
  | error e =>
    simp [cachedQueryCatch_calls]

/-- Witness for claim C9: the number 0 stored fresh under a key still sends
the next cachedQuery to queryFn. -/
theorem c9_falsy_cached_value_misses_witness :
    redisCacheGet [("kk", ⟨.vnum 0, 50⟩)] "kk" 3 = .vnull ∧
    (cachedQuery [("kk", ⟨.vnum 0, 50⟩)] [("kk", ⟨.vnum 0, 50⟩)] ⟨0, 0⟩ "kk"
      (.ok (.vnum 0)) 10 3 3 false false false).queryFnCalls = 1 :=
  c9_falsy_cached_value_misses [("kk", ⟨.vnum 0, 50⟩)] "kk" (.vnum 0) 50 ⟨0, 0⟩
    (.ok (.vnum 0)) 10 3 rfl (by decide) rfl

/-- Claim C4: when the first read misses, queryFn fails, and the breaker is
open at catch time, cachedQuery returns whatever the best-effort re-read
yields when that is non-null; when the re-read yields null or itself throws,
the original failure is rethrown unchanged, with no substituted default. -/
theorem c4_stale_fallback (store1 store2 : Store) (b : CircuitBreakerSt)
    (key : String) (e : JSVal) (ttl now1 now2 : Nat) (g2 : Bool)
    (hmiss : redisCacheGet store1 key now1 = .vnull)
    (hopen : (isCircuitOpen b now2).1 = true) :
    (g2 = false → redisCacheGet store2 key now2 ≠ .vnull →
      (cachedQuery store1 store2 b key (.error e) ttl now1 now2 false g2 false).result
        = .ok (redisCacheGet store2 key now2))
    ∧ (g2 = false → redisCacheGet store2 key now2 = .vnull →
        (cachedQuery store1 store2 b key (.error e) ttl now1 now2 false g2 false).result
          = .error e)
    ∧ (g2 = true →
        (cachedQuery store1 store2 b key (.error e) ttl now1 now2 false g2 false).result
          = .error e) := by
  unfold cachedQuery
  simp only [hmiss, Bool.false_eq_true, if_false, ne_eq, not_true_eq_false]
  unfold cachedQueryCatch
  simp only [hopen, if_true]
  refine ⟨?_, ?_, ?_⟩
  · intro hg2 hstale
    simp [hg2, hstale]
  · intro hg2 hstale
    simp [hg2, hstale]
  · intro hg2
    simp [hg2]

/-- Witness for claim C4: with an open breaker, an empty store at the first
read, and the value 7 readable at catch time, the failing call returns 7. -/
theorem c4_stale_fallback_witness :
    (cachedQuery [] [("k2", ⟨.vnum 7, 100⟩)] ⟨5, 0⟩ "k2" (.error (.vstr "boom"))
      10 0 10 false false false).result = .ok (.vnum 7) :=
  ((c4_stale_fallback [] [("k2", ⟨.vnum 7, 100⟩)] ⟨5, 0⟩ "k2" (.vstr "boom")
      10 0 10 false (by decide) (by decide)).1 rfl (by decide)).trans (by decide)

/-- A store holding the value false, fresh until instant 1000000. -/
def storeWithFalse : Store := [("k", ⟨.vbool false, 1000000⟩)]

/-- Claim C8 counterexample: the key holds a fresh, unexpired entry (the
boolean false), yet two successive cachedQuery calls invoke queryFn once
each, two times in total, because RedisCacheService.get coerces the stored
falsy value to null and the hit test fails. -/
theorem c8_counterexample :
    cacheManagerGet storeWithFalse "k" 0 = some (.vbool false)
    ∧ (cachedQuery storeWithFalse storeWithFalse ⟨0, 0⟩ "k" (.ok (.vbool false))
        3600 0 0 false false false).queryFnCalls
      + (cachedQuery
          (cachedQuery storeWithFalse storeWithFalse ⟨0, 0⟩ "k" (.ok (.vbool false))
            3600 0 0 false false false).store
          (cachedQuery storeWithFalse storeWithFalse ⟨0, 0⟩ "k" (.ok (.vbool false))
            3600 0 0 false false false).store
          (cachedQuery storeWithFalse storeWithFalse ⟨0, 0⟩ "k" (.ok (.vbool false))
            3600 0 0 false false false).breaker
          "k" (.ok (.vbool false)) 3600 1 1 false false false).queryFnCalls = 2 := by
  decide

/-- Claim C8 (amended): for every cache key holding a fresh, unexpired entry
whose stored value is truthy (RedisCacheService.get coerces falsy values to
null, and the gateway hit test is cached not-equal null), two successive
cachedQuery calls invoke queryFn zero times: each call is a cache hit that
returns the cached value immediately and leaves the store untouched. -/
theorem c8_truthy_hit_idempotent (store : Store) (b : CircuitBreakerSt)
    (key : String) (oc1 oc2 : Except JSVal JSVal) (ttl now1 now2 : Nat)
    (h1 : redisCacheGet store key now1 ≠ .vnull)
    (h2 : redisCacheGet store key now2 ≠ .vnull) :
    (cachedQuery store store b key oc1 ttl now1 now1 false false false).queryFnCalls = 0
    ∧ (cachedQuery store store b key oc1 ttl now1 now1 false false false).store = store
    ∧ (cachedQuery store store b key oc1 ttl now1 now1 false false false).result
        = .ok (redisCacheGet store key now1)
    ∧ (cachedQuery
        (cachedQuery store store b key oc1 ttl now1 now1 false false false).store
        (cachedQuery store store b key oc1 ttl now1 now1 false false false).store
        (cachedQuery store store b key oc1 ttl now1 now1 false false false).breaker
        key oc2 ttl now2 now2 false false false).queryFnCalls = 0 := by
  have e1 := cachedQuery_hit store store b key oc1 ttl now1 now1 false false h1
  refine ⟨by rw [e1], by rw [e1], by rw [e1], ?_⟩
  rw [e1]
  have e2 := cachedQuery_hit store store b key oc2 ttl now2 now2 false false h2
  rw [e2]

/-- Witness for the amended claim C8 at a concrete store with a truthy
cached value. -/
theorem c8_truthy_hit_idempotent_witness :
    (cachedQuery [("kw", ⟨.vnum 7, 100⟩)] [("kw", ⟨.vnum 7, 100⟩)] ⟨0, 0⟩ "kw"
        (.ok (.vnum 8)) 10 1 1 false false false).queryFnCalls = 0
    ∧ (cachedQuery
        (cachedQuery [("kw", ⟨.vnum 7, 100⟩)] [("kw", ⟨.vnum 7, 100⟩)] ⟨0, 0⟩ "kw"
          (.ok (.vnum 8)) 10 1 1 false false false).store
        (cachedQuery [("kw", ⟨.vnum 7, 100⟩)] [("kw", ⟨.vnum 7, 100⟩)] ⟨0, 0⟩ "kw"
          (.ok (.vnum 8)) 10 1 1 false false false).store
        (cachedQuery [("kw", ⟨.vnum 7, 100⟩)] [("kw", ⟨.vnum 7, 100⟩)] ⟨0, 0⟩ "kw"
          (.ok (.vnum 8)) 10 1 1 false false false).breaker
        "kw" (.ok (.vnum 9)) 10 2 2 false false false).queryFnCalls = 0 :=
  ⟨(c8_truthy_hit_idempotent [("kw", ⟨.vnum 7, 100⟩)] ⟨0, 0⟩ "kw" (.ok (.vnum 8))
      (.ok (.vnum 9)) 10 1 2 (by decide) (by decide)).1,
   (c8_truthy_hit_idempotent [("kw", ⟨.vnum 7, 100⟩)] ⟨0, 0⟩ "kw" (.ok (.vnum 8))
      (.ok (.vnum 9)) 10 1 2 (by decide) (by decide)).2.2.2⟩

/-- A call that finds a pending request for its key returns the recorded
promise and leaves the whole state unchanged; in particular no queue entry
is created. -/
theorem queueSubgraphRequest_pending_hit (s : DSState) (q v : String)
    (pr : Int) (now : Nat) (p : Nat)
    (h : s.pendingRequests.lookup (getRequestId q v) = some p) :
    queueSubgraphRequest s q v pr now = (p, s) := by
  simp only [queueSubgraphRequest, h]

/-- Iterating calls that all hit the same pending request hands every caller
the same promise and never changes the state. -/
theorem enqueueN_pending_hit (n : Nat) (s : DSState) (q v : String)
    (pr : Int) (now : Nat) (p : Nat)
    (h : s.pendingRequests.lookup (getRequestId q v) = some p) :
    enqueueN s q v pr now n = (List.replicate n p, s) := by
  induction n with
  | zero => simp [enqueueN]
  | succ n ih =>
    simp [enqueueN, queueSubgraphRequest_pending_hit s q v pr now p h, ih,
      List.replicate]

/-- The state after the first of a batch of coalesced calls starting from a
fresh DataService: one queue entry, one pending request, one unsettled
promise. -/
def singleEntryState (q v : String) (pr : Int) (t0 : Nat) : DSState :=
  { requestQueue := [⟨getRequestId q v, q, v, 0, pr, t0⟩]
    pendingRequests := [(getRequestId q v, 0)]
    activeRequests := []
    processedRequests := []
    promises := [(0, none)]
    nextPromiseId := 1
    isProcessingQueue := false
    breaker := ⟨0, 0⟩
    inFlight := []
    execLog := [] }

/-- N+1 coalesced calls from the fresh state: every caller receives promise
0 and the state is singleEntryState. -/
theorem enqueueN_from_initial (q v : String) (pr : Int) (t0 : Nat) (n : Nat) :
    enqueueN initialState q v pr t0 (n + 1) =
      (List.replicate (n + 1) 0, singleEntryState q v pr t0) := by
  have h0 : initialState.pendingRequests.lookup (getRequestId q v) = none := rfl
  have hfresh : queueSubgraphRequest initialState q v pr t0 =
      (0, singleEntryState q v pr t0) := by
    simp only [queueSubgraphRequest, h0, initialState, singleEntryState]
    rfl
  have hhit : (singleEntryState q v pr t0).pendingRequests.lookup
      (getRequestId q v) = some 0 := by
    simp [singleEntryState, List.lookup]
  simp [enqueueN, hfresh, enqueueN_pending_hit n _ q v pr t0 0 hhit,
    List.replicate]

/-- One tick on the single-entry state dispatches the entry: the queue
empties, the key enters the active set, the execute closure runs once, and
the request is in flight. -/
theorem processQueue_singleEntry (q v : String) (pr : Int) (t0 t1 : Nat) :
    processQueue (singleEntryState q v pr t0) t1 =
      ({ singleEntryState q v pr t0 with
           requestQueue := []
           activeRequests := [getRequestId q v]
           inFlight := [⟨getRequestId q v, q, v, 0, pr, t0⟩]
           execLog := [getRequestId q v] },
       [⟨getRequestId q v, q, v, 0, pr, t0⟩]) := by
  simp only [processQueue, singleEntryState, isCircuitOpen]
  norm_num [FAILURE_THRESHOLD, MAX_CONCURRENT_REQUESTS, admitAll, addId,
    removeId, List.insertionSort, List.orderedInsert]

/-- Claim C1 (amended): while a PendingRequest for the key exists, a further
call returns the existing future and creates no new queue entry; and for
N+1 concurrent calls sharing a dedupKey whose key has no processedRequests
memo entry when the entry is dispatched, the execute closure runs exactly
once, every caller holds the same promise, and one settlement gives all of
them the identical resolution or rejection. (When a memo entry for the key
exists at dispatch, the queue entry is instead discarded without execution
or settlement; see the counterexample.) -/
theorem c1_dedup_amended :
    (∀ (s : DSState) (q v : String) (pr : Int) (now p : Nat),
       s.pendingRequests.lookup (getRequestId q v) = some p →
       queueSubgraphRequest s q v pr now = (p, s))
    ∧ (∀ (q v : String) (pr : Int) (t0 t1 t2 : Nat) (oc : Outcome) (n : Nat),
        (enqueueN initialState q v pr t0 (n + 1)).1 = List.replicate (n + 1) 0
        ∧ ((enqueueN initialState q v pr t0 (n + 1)).2.requestQueue.filter
             (fun it => it.id == getRequestId q v)).length = 1
        ∧ (processQueue (enqueueN initialState q v pr t0 (n + 1)).2 t1).1.execLog
            = [getRequestId q v]
        ∧ (processQueue (enqueueN initialState q v pr t0 (n + 1)).2 t1).2
            = [⟨getRequestId q v, q, v, 0, pr, t0⟩]
        ∧ (∀ pid ∈ (enqueueN initialState q v pr t0 (n + 1)).1,
             (settleRequest
               (processQueue (enqueueN initialState q v pr t0 (n + 1)).2 t1).1
               ⟨getRequestId q v, q, v, 0, pr, t0⟩ oc t2).promises.lookup pid
             = some (some oc))
        ∧ (settleRequest
             (processQueue (enqueueN initialState q v pr t0 (n + 1)).2 t1).1
             ⟨getRequestId q v, q, v, 0, pr, t0⟩ oc t2).pendingRequests = []) := by
  constructor
  · exact fun s q v pr now p h => queueSubgraphRequest_pending_hit s q v pr now p h
  · intro q v pr t0 t1 t2 oc n
    rw [enqueueN_from_initial, processQueue_singleEntry]
    refine ⟨rfl, ?_, rfl, rfl, ?_, ?_⟩
    · simp [singleEntryState]
    · intro pid hpid
      have hp0 : pid = 0 := List.eq_of_mem_replicate hpid
      subst hp0
      simp [settleRequest, settlePromise, List.lookup]
    · simp [settleRequest, removeKey, singleEntryState]

/-- Witness for the amended claim C1: a concrete pending hit returns the
recorded promise 7 unchanged, and three coalesced fresh calls all receive
promise 0. -/
theorem c1_dedup_amended_witness :
    queueSubgraphRequest
      { initialState with
          pendingRequests := [(getRequestId "x" "y", 7)]
          promises := [(7, none)]
          nextPromiseId := 8 } "x" "y" 1 5 =
      (7, { initialState with
              pendingRequests := [(getRequestId "x" "y", 7)]
              promises := [(7, none)]
              nextPromiseId := 8 })
    ∧ (enqueueN initialState "x" "y" 1 0 3).1 = List.replicate 3 0 :=
  ⟨c1_dedup_amended.1
      { initialState with
          pendingRequests := [(getRequestId "x" "y", 7)]
          promises := [(7, none)]
          nextPromiseId := 8 } "x" "y" 1 5 7 (by decide),
   (c1_dedup_amended.2 "x" "y" 1 0 0 0 (.ok (.vnum 1)) 2).1⟩

/-- The request of the first, completed episode for key h_z. -/
def c1Item : QueueItem := ⟨getRequestId "h" "z", "h", "z", 0, 2, 0⟩

/-- State after a first call for h_z was enqueued, dispatched by a tick, and
settled successfully: the processedRequests memo now holds the key. -/
def c1AfterFirst : DSState :=
  settleRequest
    (processQueue (queueSubgraphRequest initialState "h" "z" 2 0).2 1).1
    c1Item (.ok (.vnum 7)) 2

/-- Two concurrent callers for the same key arriving after completion. -/
def c1Batch : List Nat × DSState := enqueueN c1AfterFirst "h" "z" 2 20 2

/-- State after the next scheduler tick processes the batch entry. -/
def c1AfterTick : DSState := (processQueue c1Batch.2 21).1

/-- Claim C1 counterexample: two concurrent calls sharing the dedupKey h_z,
made while the processedRequests memo still holds the key, coalesce onto
promise 1; the next tick consumes their queue entry, yet the execute
closure runs zero times (the execution log still holds only the first
episode) and the shared promise stays unsettled with the pending entry
still in place, contradicting run-exactly-once and settlement. -/
theorem c1_counterexample :
    c1Batch.1 = [1, 1]
    ∧ c1AfterFirst.execLog = [getRequestId "h" "z"]
    ∧ c1AfterTick.execLog = [getRequestId "h" "z"]
    ∧ c1AfterTick.requestQueue = []
    ∧ c1AfterTick.inFlight = []
    ∧ c1AfterTick.promises.lookup 1 = some none
    ∧ c1AfterTick.pendingRequests.lookup (getRequestId "h" "z") = some 1 := by
  decide

/-- The request of the first, completed episode for key g_x. -/
def c2Item : QueueItem := ⟨getRequestId "g" "x", "g", "x", 0, 1, 0⟩

/-- State after a first call for g_x was enqueued, dispatched, and settled:
the processedRequests memo holds the key. -/
def c2AfterFirst : DSState :=
  settleRequest
    (processQueue (queueSubgraphRequest initialState "g" "x" 1 0).2 1).1
    c2Item (.ok (.vnum 42)) 2

/-- A later call for the same key: the pending table was cleared on
settlement, so a fresh promise 1 and a fresh queue entry are created. -/
def c2Resub : Nat × DSState := queueSubgraphRequest c2AfterFirst "g" "x" 1 10

/-- The tick that processes the re-submitted entry. -/
def c2AfterTick : DSState × List QueueItem := processQueue c2Resub.2 11

/-- Claim C2: evaluation at the failing input. A queue entry whose id is
already in the processedRequests memo is removed from the queue by the tick
(the splice), but the memo test then skips dispatch without resolving or
rejecting: afterwards the entry is in neither the queue nor the in-flight
set, and its caller promise 1 is still unsettled while its pending entry
remains, so no later call for the key can ever create a new entry; the
caller future is never settled. -/
theorem c2_memo_drop_unsettled :
    c2Resub.1 = 1
    ∧ c2Resub.2.requestQueue.length = 1
    ∧ c2AfterTick.2 = []
    ∧ c2AfterTick.1.requestQueue = []
    ∧ c2AfterTick.1.inFlight = []
    ∧ c2AfterTick.1.activeRequests = []
    ∧ c2AfterTick.1.promises.lookup 1 = some none
    ∧ c2AfterTick.1.pendingRequests.lookup (getRequestId "g" "x") = some 1 := by
  decide

/-- Set.add grows the active set by at most one id. -/
theorem addId_length_le (l : List String) (id : String) :
    (addId l id).length ≤ l.length + 1 := by
  unfold addId
  split <;> simp

/-- Set.delete never grows the active set. -/
theorem removeId_length_le (l : List String) (id : String) :
    (removeId l id).length ≤ l.length :=
  List.length_filter_le _ _

/-- The dispatch loop does not touch the queue field. -/
theorem admitAll_requestQueue (l : List QueueItem) : ∀ s : DSState,
    (admitAll s l).1.requestQueue = s.requestQueue := by
  induction l with
  | nil => intro s; rfl
  | cons it rest ih =>
    intro s
    unfold admitAll
    split
    · exact ih _
    · exact ih _

/-- Admitting a list of entries grows the active set by at most one id per
entry. -/
theorem admitAll_active_le (l : List QueueItem) : ∀ s : DSState,
    (admitAll s l).1.activeRequests.length ≤ s.activeRequests.length + l.length := by
  induction l with
  | nil => intro s; simp [admitAll]
  | cons it rest ih =>
    intro s
    unfold admitAll
    split
    · have h1 := removeId_length_le (addId s.activeRequests it.id) it.id
      have h2 := addId_length_le s.activeRequests it.id
      have h3 := ih { s with activeRequests := removeId (addId s.activeRequests it.id) it.id }
      dsimp only at h3 ⊢
      simp only [List.length_cons]
      omega
    · have h2 := addId_length_le s.activeRequests it.id
      have h3 := ih
        { s with
            activeRequests := addId s.activeRequests it.id
            inFlight := s.inFlight ++ [it]
            execLog := s.execLog ++ [it.id] }
      dsimp only at h3 ⊢
      simp only [List.length_cons]
      omega

/-- At most one entry is dispatched per admitted entry. -/
theorem admitAll_dispatched_le (l : List QueueItem) : ∀ s : DSState,
    (admitAll s l).2.length ≤ l.length := by
  induction l with
  | nil => intro s; simp [admitAll]
  | cons it rest ih =>
    intro s
    unfold admitAll
    split
    · have := ih { s with activeRequests := removeId (addId s.activeRequests it.id) it.id }
      simp only [List.length_cons]
      omega
    · have := ih
        { s with
            activeRequests := addId s.activeRequests it.id
            inFlight := s.inFlight ++ [it]
            execLog := s.execLog ++ [it.id] }
      simp only [List.length_cons]
      omega

/-- Every entry dispatched by the loop came from the admitted list. -/
theorem admitAll_dispatched_mem (l : List QueueItem) : ∀ (s : DSState)
    (d : QueueItem), d ∈ (admitAll s l).2 → d ∈ l := by
  induction l with
  | nil => intro s d h; simp [admitAll] at h
  | cons it rest ih =>
    intro s d h
    unfold admitAll at h
    split at h
    · exact List.mem_cons_of_mem it (ih _ d h)
    · rcases List.mem_cons.mp h with h1 | h1
      · exact h1 ▸ List.mem_cons_self it rest
      · exact List.mem_cons_of_mem it (ih _ d h1)

/-- One scheduler tick keeps the active set within the concurrency bound. -/
theorem processQueue_active_le (s : DSState) (now : Nat)
    (h : s.activeRequests.length ≤ MAX_CONCURRENT_REQUESTS) :
    (processQueue s now).1.activeRequests.length ≤ MAX_CONCURRENT_REQUESTS := by
  have hM : MAX_CONCURRENT_REQUESTS = 3 := rfl
  simp only [processQueue]
  split_ifs with h1 h2 h3
  · exact h
  · exact h
  · exact h
  · have hA := admitAll_active_le
      (List.take ((MAX_CONCURRENT_REQUESTS : Int) - s.activeRequests.length).toNat
        (List.insertionSort reqOrder s.requestQueue))
      { { s with breaker := (isCircuitOpen s.breaker now).2 } with
          requestQueue := List.drop ((MAX_CONCURRENT_REQUESTS : Int) - s.activeRequests.length).toNat
            (List.insertionSort reqOrder s.requestQueue) }
    have hT : (List.take ((MAX_CONCURRENT_REQUESTS : Int) - s.activeRequests.length).toNat
        (List.insertionSort reqOrder s.requestQueue)).length ≤
        ((MAX_CONCURRENT_REQUESTS : Int) - s.activeRequests.length).toNat := by
      rw [List.length_take]
      exact min_le_left _ _
    dsimp only at hA ⊢
    rw [hM] at *
    omega

/-- Claim C5: the active set never exceeds MAX_CONCURRENT_REQUESTS (3): the
bound is preserved by every step, it holds in every state reachable from a
fresh DataService, and each tick dispatches at most the number of free
slots. -/
theorem c5_active_set_bounded :
    MAX_CONCURRENT_REQUESTS = 3
    ∧ (∀ s s2 : DSState, DSStep s s2 →
        s.activeRequests.length ≤ MAX_CONCURRENT_REQUESTS →
        s2.activeRequests.length ≤ MAX_CONCURRENT_REQUESTS)
    ∧ (∀ s : DSState, Relation.ReflTransGen DSStep initialState s →
        s.activeRequests.length ≤ MAX_CONCURRENT_REQUESTS)
    ∧ (∀ (s : DSState) (now : Nat),
        (processQueue s now).2.length ≤
          MAX_CONCURRENT_REQUESTS - s.activeRequests.length) := by
  have hpres : ∀ s s2 : DSState, DSStep s s2 →
      s.activeRequests.length ≤ MAX_CONCURRENT_REQUESTS →
      s2.activeRequests.length ≤ MAX_CONCURRENT_REQUESTS := by
    intro s s2 hstep h
    cases hstep with
    | enqueue q v pr now =>
      have hact : (queueSubgraphRequest s q v pr now).2.activeRequests
          = s.activeRequests := by
        unfold queueSubgraphRequest
        cases hl : s.pendingRequests.lookup (getRequestId q v) <;> simp [hl]
      rw [hact]
      exact h
    | tick now => exact processQueue_active_le s now h
    | settle item oc now hin => exact le_trans (removeId_length_le _ _) h
  refine ⟨rfl, hpres, ?_, ?_⟩
  · intro s hreach
    induction hreach with
    | refl => decide
    | tail hab hbc ih => exact hpres _ _ hbc ih
  · intro s now
    have hM : MAX_CONCURRENT_REQUESTS = 3 := rfl
    simp only [processQueue]
    split_ifs with h1 h2 h3
    · simp
    · simp
    · simp
    · have hD := admitAll_dispatched_le
        (List.take ((MAX_CONCURRENT_REQUESTS : Int) - s.activeRequests.length).toNat
          (List.insertionSort reqOrder s.requestQueue))
        { { s with breaker := (isCircuitOpen s.breaker now).2 } with
            requestQueue := List.drop ((MAX_CONCURRENT_REQUESTS : Int) - s.activeRequests.length).toNat
              (List.insertionSort reqOrder s.requestQueue) }
      have hT : (List.take ((MAX_CONCURRENT_REQUESTS : Int) - s.activeRequests.length).toNat
          (List.insertionSort reqOrder s.requestQueue)).length ≤
          ((MAX_CONCURRENT_REQUESTS : Int) - s.activeRequests.length).toNat := by
        rw [List.length_take]
        exact min_le_left _ _
      dsimp only at hD ⊢
      rw [hM] at *
      omega

/-- Witness for claim C5: the fresh state satisfies the reachable-state
bound, and a tick from the fresh state dispatches within the free slots. -/
theorem c5_active_set_bounded_witness :
    initialState.activeRequests.length ≤ MAX_CONCURRENT_REQUESTS
    ∧ (processQueue initialState 0).2.length ≤
        MAX_CONCURRENT_REQUESTS - initialState.activeRequests.length :=
  ⟨c5_active_set_bounded.2.2.1 initialState Relation.ReflTransGen.refl,
   c5_active_set_bounded.2.2.2 initialState 0⟩

/-- Queue entry A of the claim scenario: priority 1, enqueued at t = 0. -/
def c7A : QueueItem := ⟨"a", "qa", "va", 10, 1, 0⟩

/-- Queue entry B of the claim scenario: priority 2, enqueued at t = 1. -/
def c7B : QueueItem := ⟨"b", "qb", "vb", 11, 2, 1⟩

/-- A state with entries A and B pending and two executions active, so that
exactly one slot is free at the next tick. -/
def c7State : DSState :=
  { requestQueue := [c7A, c7B]
    pendingRequests := [("a", 10), ("b", 11)]
    activeRequests := ["x1", "x2"]
    processedRequests := []
    promises := [(10, none), (11, none)]
    nextPromiseId := 12
    isProcessingQueue := false
    breaker := ⟨0, 0⟩
    inFlight := [⟨"x1", "qx", "vx", 8, 1, 0⟩, ⟨"x2", "qy", "vy", 9, 1, 0⟩]
    execLog := ["x1", "x2"] }

/-- Claim C7: in the claim scenario with A (priority 1, t 0) and B
(priority 2, t 1) both pending and one free slot, the tick dispatches B and
leaves A queued; and in general every entry dispatched by a tick dominates
every entry left in the queue in the order priority descending, then
enqueue timestamp ascending. -/
theorem c7_priority_dispatch :
    ((processQueue c7State 100).2.map QueueItem.id = ["b"]
      ∧ (processQueue c7State 100).1.requestQueue.map QueueItem.id = ["a"])
    ∧ (∀ (s : DSState) (now : Nat) (d r2 : QueueItem),
        d ∈ (processQueue s now).2 →
        r2 ∈ (processQueue s now).1.requestQueue →
        r2.priority < d.priority
          ∨ (d.priority = r2.priority ∧ d.timestamp ≤ r2.timestamp)) := by
  constructor
  · exact ⟨by decide, by decide⟩
  · intro s now d r2 hd hr
    simp only [processQueue] at hd hr
    split_ifs at hd hr with h1 h2 h3
    · simp at hd
    · simp at hd
    · simp at hd
    · rw [admitAll_requestQueue] at hr
      dsimp only at hr
      have hd2 := admitAll_dispatched_mem _ _ d hd
      have hsorted : List.Sorted reqOrder
          (List.insertionSort reqOrder s.requestQueue) :=
        List.sorted_insertionSort reqOrder _
      have hsplit : List.Sorted reqOrder
          (List.take ((MAX_CONCURRENT_REQUESTS : Int) - s.activeRequests.length).toNat
              (List.insertionSort reqOrder s.requestQueue)
            ++ List.drop ((MAX_CONCURRENT_REQUESTS : Int) - s.activeRequests.length).toNat
              (List.insertionSort reqOrder s.requestQueue)) := by
        rw [List.take_append_drop]
        exact hsorted
      have h4 : reqOrder d r2 :=
        (List.pairwise_append.mp hsplit).2.2 d hd2 r2 hr
      unfold reqOrder at h4
      split_ifs at h4 with h5
      · right
        exact ⟨h5, h4⟩
      · left
        exact h4

/-- Witness for claim C7: applying the general ordering statement to the
concrete scenario shows B dominates A at that tick. -/
theorem c7_priority_dispatch_witness :
    c7A.priority < c7B.priority
      ∨ (c7B.priority = c7A.priority ∧ c7B.timestamp ≤ c7A.timestamp) :=
  c7_priority_dispatch.2 c7State 100 c7B c7A (by decide) (by decide)
